import Mathlib

/-!
# Verification of the localdog fund quant system core

Shallow embedding over `ℚ` of the analysis core of the repository:

* `fund_quant_system_final.py` — `FundQuantSystem.calculate_technical_indicators`
  (moving averages + RSI), `get_trading_advice`, `_calculate_confidence`,
  `analyze_fund` / `analyze_multiple_funds`;
* `fund_quant_system_simple.py` — the growth-threshold classifier inside
  `calculate_technical_indicators` and the freshness cache inside
  `get_fund_realtime_info`.

Python dicts holding the indicator snapshot are embedded as a structure whose
fields carry the defaults the consumers apply with `dict.get` (the empty dict
returned for short series reads back as `ma* = None`, `rsi = 50`,
`current_nav = 0` at every use site). Network fetches are embedded as
`Except Unit Payload` values supplied by the caller; the caches as association
lists where lookup takes the first match (dict-overwrite semantics under
cons-insertion).
-/

namespace LocalDog

/-- The four trading signals emitted by either decision path. -/
inductive Signal where
  | buy
  | sell
  | hold
  | watch
deriving DecidableEq, Repr

namespace Final

/-- Indicator snapshot: the dict returned by
`calculate_technical_indicators` in `fund_quant_system_final.py`, read through
the `dict.get` defaults its consumers use (`ma*` default `None`, `rsi`
default `50`, `current_nav` default `0`). -/
structure Indicators where
  ma5 : Option ℚ
  ma10 : Option ℚ
  ma20 : Option ℚ
  rsi : ℚ
  current_nav : ℚ
deriving DecidableEq, Repr

/-- `calculate_ma(values, period)` from `fund_quant_system_final.py`
(lines 149-152): the list of all window means, empty when the series is
shorter than the window. -/
def calculate_ma (values : List ℚ) (period : ℕ) : List ℚ :=
  if values.length < period then []
  else (List.range (values.length - period + 1)).map
    (fun i => ((values.drop i).take period).sum / period)

/-- The consecutive differences `values[i] - values[i-1]` for
`i = 1 .. len-1`, as computed by the loop in `calculate_rsi`
(lines 166-173 of `fund_quant_system_final.py`). -/
def deltas : List ℚ → List ℚ
  | a :: b :: rest => (b - a) :: deltas (b :: rest)
  | _ => []

/-- `calculate_rsi(values, period=14)` from `fund_quant_system_final.py`
(lines 159-186). The loop appends `change`/`0` to `gains` and `0`/`|change|`
to `losses` per step; that is the two maps over `deltas` below.
`gains[-period:]` is `drop (length - period)`. -/
def calculate_rsi (values : List ℚ) (period : ℕ := 14) : ℚ :=
  if values.length < period + 1 then 50
  else
    let ds := deltas values
    let gains := ds.map (fun change => if change > 0 then change else 0)
    let losses := ds.map (fun change => if change > 0 then 0 else |change|)
    if gains.length < period then 50
    else
      let avg_gain := (gains.drop (gains.length - period)).sum / period
      let avg_loss := (losses.drop (losses.length - period)).sum / period
      if avg_loss = 0 then (if avg_gain > 0 then 100 else 50)
      else
        let rs := avg_gain / avg_loss
        100 - 100 / (1 + rs)

/-- `calculate_technical_indicators(history_data)` from
`fund_quant_system_final.py` (lines 139-196). The input is the nav column of
`history_data` (newest first, as `get_fund_history_nav` returns it); the code
reverses it into chronological order. A series shorter than 5 yields the
empty dict, i.e. the all-default snapshot. `ma5[-1] if ma5 else None` is
`getLast?`; `nav_values[-1] if nav_values else 0` is `getLast?.getD 0`. -/
def calculate_technical_indicators (history_data : List ℚ) : Indicators :=
  if history_data.length < 5 then ⟨none, none, none, 50, 0⟩
  else
    let nav_values := history_data.reverse
    let ma5 := calculate_ma nav_values 5
    let ma10 := calculate_ma nav_values 10
    let ma20 := calculate_ma nav_values 20
    let rsi := calculate_rsi nav_values 14
    ⟨ma5.getLast?, ma10.getLast?, ma20.getLast?, rsi, nav_values.getLast?.getD 0⟩

/-- The RSI overbought/oversold override applied to the base advice,
lines 217-231 of `fund_quant_system_final.py`. -/
def rsi_override (advice : Signal) (rsi : ℚ) : Signal :=
  if rsi > 70 then
    if advice = Signal.buy then Signal.hold
    else if advice = Signal.hold then Signal.sell
    else advice
  else if rsi < 30 then
    if advice = Signal.sell then Signal.hold
    else if advice = Signal.hold then Signal.buy
    else advice
  else advice

/-- `_calculate_confidence(realtime_info, indicators)` from
`fund_quant_system_final.py` (lines 239-253): only
`realtime_info['estimate_growth']` and `indicators['rsi']` are read. -/
def calculate_confidence (estimate_growth : ℚ) (rsi : ℚ) : ℚ :=
  let confidence : ℚ := 0.5
  let confidence := if |estimate_growth| > 2 then confidence + 0.2 else confidence
  let confidence := if rsi < 20 ∨ rsi > 80 then confidence + 0.15 else confidence
  min confidence 0.95

/-- A trading advice record (`advice` and `confidence`; the human-readable
reason string is not modelled). -/
structure TradingAdvice where
  advice : Signal
  confidence : ℚ
deriving DecidableEq, Repr

/-- `get_trading_advice(fund_code, realtime_info, indicators)` from
`fund_quant_system_final.py` (lines 198-237): advice starts at `hold`, the
trend comparison runs only when `ma5` and `ma10` are both present
(`current_nav > ma5 > ma10` is the chained comparison), then the RSI
override is applied; confidence is computed separately. -/
def get_trading_advice (estimate_growth : ℚ) (indicators : Indicators) :
    TradingAdvice :=
  let current_nav := indicators.current_nav
  let rsi := indicators.rsi
  let advice :=
    match indicators.ma5, indicators.ma10 with
    | some ma5, some ma10 =>
        if current_nav > ma5 ∧ ma5 > ma10 then Signal.buy
        else if current_nav < ma5 ∧ ma5 < ma10 then Signal.sell
        else Signal.hold
    | _, _ => Signal.hold
  let advice := rsi_override advice rsi
  ⟨advice, calculate_confidence estimate_growth rsi⟩

end Final

namespace Simple

/-- The growth-threshold classifier inside `calculate_technical_indicators`
of `fund_quant_system_simple.py` (lines 91-105), mapping the same-day growth
percentage `gszzl` to an advice. -/
def growth_advice (growth_rate : ℚ) : Signal :=
  if growth_rate > 1.0 then Signal.sell
  else if growth_rate < -1.0 then Signal.buy
  else if growth_rate > 0.5 then Signal.hold
  else if growth_rate < -0.5 then Signal.watch
  else Signal.hold

/-- A parsed remote payload: the dict returned by `_parse_jsonp`, embedded as
a string-keyed association list. The empty dict is `[]`. -/
abbrev Payload := List (String × String)

/-- The `fund_cache` dict of `fund_quant_system_simple.py`: cache key to
`(data, timestamp)` pair. Lookup takes the first match, so cons-insertion has
dict-overwrite semantics. -/
abbrev Cache := List (String × (Payload × ℚ))

/-- `get_fund_realtime_info(fund_code)` from `fund_quant_system_simple.py`
(lines 44-74). The remote fetch-and-parse (`session.get` + `raise_for_status`
+ `_parse_jsonp`) is the caller-supplied `fetch : Except Unit Payload`; the
`float` field conversions do not change the dict keys and are not modelled.
A fetch failure is caught (`except Exception`) and yields the empty dict with
the cache unchanged. The returned `Bool` records whether `fetch` was invoked
(instrumentation for the freshness properties, not program data). -/
def get_fund_realtime_info (fetch : Except Unit Payload) (cache_timeout : ℚ)
    (fund_cache : Cache) (fund_code : String) (current_time : ℚ) :
    Payload × Cache × Bool :=
  let cache_key := "realtime_" ++ fund_code
  let fetched : Payload × Cache × Bool :=
    match fetch with
    | Except.ok data => (data, (cache_key, (data, current_time)) :: fund_cache, true)
    | Except.error _ => ([], fund_cache, true)
  match fund_cache.lookup cache_key with
  | some (cached_data, timestamp) =>
      if current_time - timestamp < cache_timeout then (cached_data, fund_cache, false)
      else fetched
  | none => fetched

/-- The FreshnessCache contract as the spec words it (§4.3): hit within ttl
returns the stored payload, miss or stale entry invokes the fetch and stores
the result at the current timestamp, and a fetch failure PROPAGATES to the
caller. Written from the spec, to be compared with `get_fund_realtime_info`
above, which instead catches the failure. -/
def spec_get_or_fetch (fetch : Except Unit Payload) (ttl : ℚ)
    (cache : Cache) (fund_code : String) (now : ℚ) :
    Except Unit (Payload × Cache) :=
  let key := "realtime_" ++ fund_code
  match cache.lookup key with
  | some (payload, fetched_at) =>
      if now - fetched_at < ttl then Except.ok (payload, cache)
      else fetch.map (fun data => (data, (key, (data, now)) :: cache))
  | none => fetch.map (fun data => (data, (key, (data, now)) :: cache))

end Simple

namespace Final

/-- The fields of the realtime-info dict that `analyze_fund` and
`get_trading_advice` read: `name` (empty on a failed or unknown fetch, see
lines 56-82 of `fund_quant_system_final.py`) and `estimate_growth`. -/
structure RTInfo where
  name : String
  estimate_growth : ℚ
deriving DecidableEq, Repr

/-- Result of `analyze_fund`: the error dict (`status: error`) or the success
report, of which we keep the technical indicators and the trading advice. -/
inductive AnalysisResult where
  | error
  | success (indicators : Indicators) (advice : TradingAdvice)
deriving DecidableEq, Repr

/-- `analyze_fund(fund_code)` from `fund_quant_system_final.py`
(lines 255-297). The environment `env` supplies, per fund code, the realtime
info and the nav column of the history data (the two remote calls; both catch
their own network errors, a failed realtime fetch surfacing as `name = ''`).
An empty name yields the error report; otherwise indicators and advice are
computed. Every embedded step is total, mirroring the outer `try/except`. -/
def analyze_fund (env : String → RTInfo × List ℚ) (fund_code : String) :
    AnalysisResult :=
  let (realtime_info, history_data) := env fund_code
  if realtime_info.name = "" then AnalysisResult.error
  else
    let indicators := calculate_technical_indicators history_data
    AnalysisResult.success indicators
      (get_trading_advice realtime_info.estimate_growth indicators)

/-- `analyze_multiple_funds(fund_codes)` from `fund_quant_system_final.py`
(lines 299-306): one `analyze_fund` entry per input code, in input order
(the courtesy `time.sleep` has no data effect). -/
def analyze_multiple_funds (env : String → RTInfo × List ℚ)
    (fund_codes : List String) : List (String × AnalysisResult) :=
  fund_codes.map (fun fund_code => (fund_code, analyze_fund env fund_code))

/-- A three-instrument batch environment in which instrument "B" is the one
whose fetch fails (empty name), while "A" and "C" resolve normally. -/
def env3 : String → RTInfo × List ℚ := fun fund_code =>
  if fund_code = "B" then (⟨"", 0⟩, [])
  else (⟨"fund " ++ fund_code, 0.3⟩, [1.05, 1.03, 1.02, 1.01, 1.00])

/-- The spec's "average gain" for the momentum oscillator: the mean of the
last `p` gain values taken over the consecutive nav deltas (positive deltas
are gains, the bucket is zero-filled at non-positive deltas). -/
def spec_avg_gain (values : List ℚ) (p : ℕ) : ℚ :=
  (((deltas values).map (fun c => if c > 0 then c else 0)).reverse.take p).sum / p

/-- The spec's "average loss" for the momentum oscillator: the mean of the
last `p` loss values (absolute value of negative deltas, zero-filled at
non-negative deltas). -/
def spec_avg_loss (values : List ℚ) (p : ℕ) : ℚ :=
  (((deltas values).map (fun c => if c > 0 then 0 else |c|)).reverse.take p).sum / p

end Final

end LocalDog

namespace LocalDog

open Final Simple

lemma deltas_length : ∀ l : List ℚ, (Final.deltas l).length = l.length - 1
  | [] => rfl
  | [_] => rfl
  | a :: b :: rest => by
      have ih := deltas_length (b :: rest)
      simp only [Final.deltas, List.length_cons] at ih ⊢
      omega

/-- The sum of the last `k` elements of a list equals the sum of the first
`k` elements of its reverse. -/
lemma sum_drop_length_sub (l : List ℚ) (k : ℕ) :
    (l.drop (l.length - k)).sum = (l.reverse.take k).sum := by
  calc (l.drop (l.length - k)).sum = (l.rtake k).sum := rfl
    _ = (l.reverse.take k).reverse.sum := by rw [List.rtake_eq_reverse_take_reverse]
    _ = (l.reverse.take k).sum := List.sum_reverse _

lemma rsi_override_ne_watch (s : Signal) (r : ℚ) (hs : s ≠ Signal.watch) :
    Final.rsi_override s r ≠ Signal.watch := by
  cases s <;> simp only [Final.rsi_override] <;> split_ifs <;> simp_all

/-- Evaluation of the indicator computation on the 5-point scenario series
(newest-first input order): short MA present, mid and long absent, neutral
momentum. -/
lemma indicators_scenario5 :
    Final.calculate_technical_indicators [1.05, 1.03, 1.02, 1.01, 1.00] =
      ⟨some 1.022, none, none, 50, 1.05⟩ := by
  norm_num [Final.calculate_technical_indicators, Final.calculate_ma,
    Final.calculate_rsi, List.range_succ, Final.Indicators.mk.injEq]

/-- C1: a series with fewer than 5 points yields the snapshot with all three
moving averages absent and momentum (rsi) equal to 50; the computation is a
total function, so it never raises an error. (`current_nav` reads back as the
`dict.get` default 0.) -/
theorem claim_C1_short_series (history_data : List ℚ)
    (h : history_data.length < 5) :
    Final.calculate_technical_indicators history_data =
      ⟨none, none, none, 50, 0⟩ := by
  simp [Final.calculate_technical_indicators, h]

theorem claim_C1_witness :
    ([1.0, 1.01] : List ℚ).length < 5 ∧
    Final.calculate_technical_indicators [1.0, 1.01] = ⟨none, none, none, 50, 0⟩ :=
  ⟨by decide, claim_C1_short_series [1.0, 1.01] (by decide)⟩

/-- C2 fails on the code: for the 5-point series [1.00, 1.01, 1.02, 1.03,
1.05] (supplied newest-first as the code receives it), `ma5` is present and
equals 1.022 and the momentum is 50 ≤ 70, yet the final signal is `hold`,
not `buy` — `get_trading_advice` enters the trend comparison only when `ma5`
and `ma10` are BOTH present, and with 5 points `ma10` is absent. -/
theorem claim_C2_counterexample :
    (Final.calculate_technical_indicators [1.05, 1.03, 1.02, 1.01, 1.00]).ma5 =
      some 1.022 ∧
    (Final.calculate_technical_indicators [1.05, 1.03, 1.02, 1.01, 1.00]).rsi ≤ 70 ∧
    (Final.get_trading_advice 0.3
        (Final.calculate_technical_indicators [1.05, 1.03, 1.02, 1.01, 1.00])).advice ≠
      Signal.buy := by
  rw [indicators_scenario5]
  refine ⟨rfl, by norm_num, ?_⟩
  norm_num [Final.get_trading_advice, Final.rsi_override]
  decide

/-- C2 amended: for the nav series [1.00, 1.01, 1.02, 1.03, 1.05] with
same-day growth 0.3, `ma_short` is present and equals 1.022 and momentum is
50, but the trend path requires the mid moving average as well; with only 5
points `ma_mid` is absent, so the base signal defaults to `hold` and, with
momentum 50 triggering no override, the final signal is `hold`. -/
theorem claim_C2_amended :
    (Final.calculate_technical_indicators [1.05, 1.03, 1.02, 1.01, 1.00]).ma5 =
      some 1.022 ∧
    (Final.calculate_technical_indicators [1.05, 1.03, 1.02, 1.01, 1.00]).ma10 = none ∧
    (Final.calculate_technical_indicators [1.05, 1.03, 1.02, 1.01, 1.00]).rsi = 50 ∧
    (Final.get_trading_advice 0.3
        (Final.calculate_technical_indicators [1.05, 1.03, 1.02, 1.01, 1.00])).advice =
      Signal.hold := by
  rw [indicators_scenario5]
  refine ⟨rfl, rfl, rfl, ?_⟩
  norm_num [Final.get_trading_advice, Final.rsi_override]

/-- C3: with at least 15 points (momentum window 14 plus one) the momentum
equals 100 − 100/(1 + avg_gain/avg_loss), where the averages are the means of
the last 14 gain and loss values of the consecutive nav deltas; when the loss
average is zero the momentum is 100 if the gain average is positive and 50
otherwise; with fewer than 15 points the momentum is 50. -/
theorem claim_C3_rsi (values : List ℚ) :
    (15 ≤ values.length →
      Final.calculate_rsi values 14 =
        (if Final.spec_avg_loss values 14 = 0 then
          (if Final.spec_avg_gain values 14 > 0 then 100 else 50)
        else
          100 - 100 /
            (1 + Final.spec_avg_gain values 14 / Final.spec_avg_loss values 14)))
    ∧ (values.length < 15 → Final.calculate_rsi values 14 = 50) := by
  constructor
  · intro h
    have hd := deltas_length values
    have h1 : ¬ values.length < 14 + 1 := by omega
    have h2 : ¬ ((Final.deltas values).map
        (fun change => if change > 0 then change else 0)).length < 14 := by
      rw [List.length_map, hd]; omega
    rw [Final.calculate_rsi, if_neg h1, if_neg h2]
    simp only [Final.spec_avg_gain, Final.spec_avg_loss, ← sum_drop_length_sub]
  · intro h
    rw [Final.calculate_rsi, if_pos (by omega)]

theorem claim_C3_witness :
    15 ≤ ([1, 2, 3, 4, 5, 6, 7, 8, 9, 10, 11, 12, 13, 14, 15] : List ℚ).length ∧
    Final.calculate_rsi [1, 2, 3, 4, 5, 6, 7, 8, 9, 10, 11, 12, 13, 14, 15] 14 =
      (if Final.spec_avg_loss [1, 2, 3, 4, 5, 6, 7, 8, 9, 10, 11, 12, 13, 14, 15] 14 = 0 then
        (if Final.spec_avg_gain [1, 2, 3, 4, 5, 6, 7, 8, 9, 10, 11, 12, 13, 14, 15] 14 > 0
          then 100 else 50)
      else
        100 - 100 /
          (1 + Final.spec_avg_gain [1, 2, 3, 4, 5, 6, 7, 8, 9, 10, 11, 12, 13, 14, 15] 14 /
            Final.spec_avg_loss [1, 2, 3, 4, 5, 6, 7, 8, 9, 10, 11, 12, 13, 14, 15] 14)) :=
  ⟨by decide,
   (claim_C3_rsi [1, 2, 3, 4, 5, 6, 7, 8, 9, 10, 11, 12, 13, 14, 15]).1 (by decide)⟩

/-- C4: the momentum override after the trend base signal — momentum above 70
turns buy into hold and hold into sell while sell stays sell; momentum below
30 turns sell into hold and hold into buy while buy stays buy. -/
theorem claim_C4_override (r : ℚ) :
    (r > 70 →
      Final.rsi_override Signal.buy r = Signal.hold ∧
      Final.rsi_override Signal.hold r = Signal.sell ∧
      Final.rsi_override Signal.sell r = Signal.sell)
    ∧ (r < 30 →
      Final.rsi_override Signal.sell r = Signal.hold ∧
      Final.rsi_override Signal.hold r = Signal.buy ∧
      Final.rsi_override Signal.buy r = Signal.buy) := by
  constructor
  · intro h
    refine ⟨?_, ?_, ?_⟩ <;> simp [Final.rsi_override, h]
  · intro h
    have h2 : ¬ r > 70 := by linarith
    refine ⟨?_, ?_, ?_⟩ <;> simp [Final.rsi_override, h, h2]

theorem claim_C4_witness :
    ((71 : ℚ) > 70 ∧ Final.rsi_override Signal.buy 71 = Signal.hold) ∧
    ((20 : ℚ) < 30 ∧ Final.rsi_override Signal.hold 20 = Signal.buy) :=
  ⟨⟨by norm_num, ((claim_C4_override 71).1 (by norm_num)).1⟩,
   ⟨by norm_num, ((claim_C4_override 20).2 (by norm_num)).2.1⟩⟩

/-- C5: the growth-only classifier maps the same-day growth to a signal by
first matching threshold, in the order +1.0/sell, −1.0/buy, +0.5/hold,
−0.5/watch, else hold; in particular 1.5 yields sell and −1.2 yields buy. -/
theorem claim_C5_growth_thresholds (g : ℚ) :
    (g > 1 → Simple.growth_advice g = Signal.sell)
    ∧ (g < -1 → Simple.growth_advice g = Signal.buy)
    ∧ (1/2 < g → g ≤ 1 → Simple.growth_advice g = Signal.hold)
    ∧ (g < -1/2 → -1 ≤ g → Simple.growth_advice g = Signal.watch)
    ∧ (-1/2 ≤ g → g ≤ 1/2 → Simple.growth_advice g = Signal.hold)
    ∧ Simple.growth_advice 1.5 = Signal.sell
    ∧ Simple.growth_advice (-1.2) = Signal.buy := by
  refine ⟨?_, ?_, ?_, ?_, ?_, by norm_num [Simple.growth_advice],
    by norm_num [Simple.growth_advice]⟩ <;>
    (intros; unfold Simple.growth_advice; split_ifs <;> norm_num at * <;> linarith)

theorem claim_C5_witness :
    ((2 : ℚ) > 1 ∧ Simple.growth_advice 2 = Signal.sell) ∧
    ((-0.7 : ℚ) < -1/2 ∧ (-1 : ℚ) ≤ -0.7 ∧ Simple.growth_advice (-0.7) = Signal.watch) :=
  ⟨⟨by norm_num, (claim_C5_growth_thresholds 2).1 (by norm_num)⟩,
   ⟨by norm_num, by norm_num,
    (claim_C5_growth_thresholds (-0.7)).2.2.2.1 (by norm_num) (by norm_num)⟩⟩

/-- C6: the confidence equals the spec's formula (base 0.5, +0.2 when the
absolute same-day growth exceeds 2, +0.15 when momentum is below 20 or above
80, capped at 0.95), always lies within [0.5, 0.95], and never influences
the emitted signal (the advice component of `get_trading_advice` does not
depend on the growth figure that feeds the confidence). -/
theorem claim_C6_confidence (estimate_growth rsi g₁ g₂ : ℚ)
    (ind : Final.Indicators) :
    Final.calculate_confidence estimate_growth rsi =
      min (0.5 + (if |estimate_growth| > 2 then 0.2 else 0)
        + (if rsi < 20 ∨ rsi > 80 then 0.15 else 0)) 0.95
    ∧ 0.5 ≤ Final.calculate_confidence estimate_growth rsi
    ∧ Final.calculate_confidence estimate_growth rsi ≤ 0.95
    ∧ (Final.get_trading_advice g₁ ind).advice =
        (Final.get_trading_advice g₂ ind).advice := by
  refine ⟨?_, ?_, ?_, rfl⟩ <;>
    (unfold Final.calculate_confidence; split_ifs <;> norm_num [min_def])

/-- C7: a cache hit younger than the ttl returns the stored payload without
invoking the fetch; starting from no entry, the first lookup invokes the
fetch and stores its result, and a second lookup within the ttl window
returns that payload without invoking any fetch (so the two lookups invoke
the fetch exactly once); a lookup at or past the ttl invokes the fetch again
and stores the fresh result with the current timestamp. -/
theorem claim_C7_cache (fetch : Except Unit Simple.Payload) (ttl : ℚ)
    (cache : Simple.Cache) (fund_code : String) (now : ℚ) :
    (∀ d ts, cache.lookup ("realtime_" ++ fund_code) = some (d, ts) →
      now - ts < ttl →
      Simple.get_fund_realtime_info fetch ttl cache fund_code now = (d, cache, false))
    ∧ (∀ d, fetch = Except.ok d →
        cache.lookup ("realtime_" ++ fund_code) = none →
        Simple.get_fund_realtime_info fetch ttl cache fund_code now =
          (d, ("realtime_" ++ fund_code, (d, now)) :: cache, true)
        ∧ ∀ (fetch₂ : Except Unit Simple.Payload) (now₂ : ℚ), now₂ - now < ttl →
            Simple.get_fund_realtime_info fetch₂ ttl
                (("realtime_" ++ fund_code, (d, now)) :: cache) fund_code now₂ =
              (d, ("realtime_" ++ fund_code, (d, now)) :: cache, false))
    ∧ (∀ d ts d₂, cache.lookup ("realtime_" ++ fund_code) = some (d, ts) →
        ttl ≤ now - ts →
        Simple.get_fund_realtime_info (Except.ok d₂) ttl cache fund_code now =
          (d₂, ("realtime_" ++ fund_code, (d₂, now)) :: cache, true)) := by
  refine ⟨?_, ?_, ?_⟩
  · intro d ts hl hf
    simp [Simple.get_fund_realtime_info, hl, hf]
  · intro d hfetch hl
    subst hfetch
    refine ⟨by simp [Simple.get_fund_realtime_info, hl], ?_⟩
    intro fetch₂ now₂ hf
    simp [Simple.get_fund_realtime_info, List.lookup, hf]
  · intro d ts d₂ hl hstale
    have hns : ¬ now - ts < ttl := not_lt.mpr hstale
    simp [Simple.get_fund_realtime_info, hl, hns]

theorem claim_C7_witness :
    (([] : Simple.Cache).lookup ("realtime_" ++ "000001") = none)
    ∧ Simple.get_fund_realtime_info (Except.ok [("fundcode", "000001")]) 300 []
        "000001" 0 =
      ([("fundcode", "000001")],
        [("realtime_" ++ "000001", ([("fundcode", "000001")], 0))], true)
    ∧ Simple.get_fund_realtime_info (Except.error ()) 300
        [("realtime_" ++ "000001", ([("fundcode", "000001")], 0))] "000001" 100 =
      ([("fundcode", "000001")],
        [("realtime_" ++ "000001", ([("fundcode", "000001")], 0))], false)
    ∧ Simple.get_fund_realtime_info (Except.ok [("gszzl", "2.0")]) 300
        [("realtime_" ++ "000001", ([("fundcode", "000001")], 0))] "000001" 400 =
      ([("gszzl", "2.0")],
        ("realtime_" ++ "000001", ([("gszzl", "2.0")], 400)) ::
          [("realtime_" ++ "000001", ([("fundcode", "000001")], 0))], true) := by
  obtain ⟨h1, h2⟩ :=
    (claim_C7_cache (Except.ok [("fundcode", "000001")]) 300 [] "000001" 0).2.1
      [("fundcode", "000001")] rfl rfl
  refine ⟨rfl, h1, h2 (Except.error ()) 100 (by norm_num), ?_⟩
  exact (claim_C7_cache (Except.ok [("gszzl", "2.0")]) 300
      [("realtime_" ++ "000001", ([("fundcode", "000001")], 0))] "000001" 400).2.2
    [("fundcode", "000001")] 0 [("gszzl", "2.0")] (by simp [List.lookup]) (by norm_num)

/-- C8 fails on the code: `get_fund_realtime_info` catches a fetch failure
(`except Exception`) and hands its caller the empty dict as an ordinary
return value — at the concrete input below (empty cache, failing fetch, ttl
300) the spec-worded `spec_get_or_fetch` propagates the error while the code
returns the plain payload `[]`, indistinguishable in kind from a successful
fetch; the failure does not propagate. (The cache half of the claim does
hold.) -/
theorem claim_C8_counterexample :
    Simple.spec_get_or_fetch (Except.error ()) 300 [] "000001" 0 =
      Except.error () ∧
    Simple.get_fund_realtime_info (Except.error ()) 300 [] "000001" 0 =
      ([], [], true) ∧
    (Simple.get_fund_realtime_info (Except.error ()) 300 [] "000001" 0).1 =
      (Simple.get_fund_realtime_info (Except.ok []) 300 [] "000001" 0).1 :=
  ⟨rfl, rfl, rfl⟩

/-- C8 amended: when the fetch is actually attempted (no cache entry, or only
a stale one) and fails, the wrapper catches the failure and returns the empty
payload to its caller instead of propagating it, and the cache is left
unchanged — in particular a stale-but-present entry is not evicted by the
failed refresh. -/
theorem claim_C8_failure_caught (e : Unit) (ttl : ℚ) (cache : Simple.Cache)
    (fund_code : String) (now : ℚ)
    (hstale : ∀ d ts, cache.lookup ("realtime_" ++ fund_code) = some (d, ts) →
      ttl ≤ now - ts) :
    Simple.get_fund_realtime_info (Except.error e) ttl cache fund_code now =
      ([], cache, true) := by
  cases hl : cache.lookup ("realtime_" ++ fund_code) with
  | none => simp [Simple.get_fund_realtime_info, hl]
  | some p =>
      obtain ⟨d, ts⟩ := p
      have hns : ¬ now - ts < ttl := not_lt.mpr (hstale d ts hl)
      simp [Simple.get_fund_realtime_info, hl, hns]

theorem claim_C8_witness :
    (∀ d ts, ([("realtime_" ++ "000001", ([("fundcode", "000001")], 0))] :
        Simple.Cache).lookup ("realtime_" ++ "000001") = some (d, ts) →
      (300 : ℚ) ≤ 400 - ts) ∧
    Simple.get_fund_realtime_info (Except.error ()) 300
        [("realtime_" ++ "000001", ([("fundcode", "000001")], 0))] "000001" 400 =
      ([], [("realtime_" ++ "000001", ([("fundcode", "000001")], 0))], true) := by
  have hstale : ∀ (d : Simple.Payload) (ts : ℚ),
      ([("realtime_" ++ "000001", ([("fundcode", "000001")], 0))] :
        Simple.Cache).lookup ("realtime_" ++ "000001") = some (d, ts) →
      (300 : ℚ) ≤ 400 - ts := by
    intro d ts h
    simp [List.lookup] at h
    rw [← h.2]
    norm_num
  exact ⟨hstale, claim_C8_failure_caught () 300 _ "000001" 400 hstale⟩

lemma map_fst_pairs (f : String → Final.AnalysisResult) (codes : List String) :
    (codes.map (fun c => (c, f c))).map Prod.fst = codes := by
  induction codes with
  | nil => rfl
  | cons x xs ih => simp only [List.map_cons, ih]

lemma lookup_map_pair (f : String → Final.AnalysisResult) :
    ∀ (codes : List String) (c : String), c ∈ codes →
      (codes.map (fun x => (x, f x))).lookup c = some (f c)
  | [], c, hc => absurd hc (List.not_mem_nil c)
  | x :: xs, c, hc => by
      rcases eq_or_ne c x with rfl | hne
      · simp [List.lookup]
      · have hm : c ∈ xs := by
          rcases List.mem_cons.mp hc with h | h
          · exact absurd h hne
          · exact h
        have hbe : (c == x) = false := beq_eq_false_iff_ne.mpr hne
        simp [List.lookup, hbe, lookup_map_pair f xs c hm]

/-- C9: the batch analysis yields one entry per input id in input order, each
entry being exactly that instrument's individual analysis, so a failure for
one instrument (here "B", whose fetch yields an empty name) is recorded as
that instrument's error marker while the others receive valid reports and
the batch never aborts. -/
theorem claim_C9_batch (env : String → Final.RTInfo × List ℚ)
    (codes : List String) :
    (Final.analyze_multiple_funds env codes).map Prod.fst = codes
    ∧ (∀ c, c ∈ codes →
        (Final.analyze_multiple_funds env codes).lookup c =
          some (Final.analyze_fund env c))
    ∧ Final.analyze_fund Final.env3 "B" = Final.AnalysisResult.error
    ∧ Final.analyze_fund Final.env3 "A" ≠ Final.AnalysisResult.error
    ∧ Final.analyze_fund Final.env3 "C" ≠ Final.AnalysisResult.error
    ∧ (Final.analyze_multiple_funds Final.env3 ["A", "B", "C"]).map Prod.fst =
        ["A", "B", "C"] := by
  refine ⟨map_fst_pairs _ codes, lookup_map_pair _ codes, ?_, ?_, ?_,
    map_fst_pairs _ _⟩
  · simp [Final.analyze_fund, Final.env3]
  · simp [Final.analyze_fund, Final.env3]
  · simp [Final.analyze_fund, Final.env3]

theorem claim_C9_witness :
    "A" ∈ (["A", "B", "C"] : List String) ∧
    (Final.analyze_multiple_funds Final.env3 ["A", "B", "C"]).lookup "A" =
      some (Final.analyze_fund Final.env3 "A") :=
  ⟨by simp, (claim_C9_batch Final.env3 ["A", "B", "C"]).2.1 "A" (by simp)⟩

/-- C10: the decision function of the trend file emits only buy, sell or
hold — never watch — for every combination of moving averages, momentum and
current nav; the watch signal arises only from the growth-only classifier
(witnessed at growth −0.7). -/
theorem claim_C10_no_watch (g : ℚ) (ind : Final.Indicators) :
    (Final.get_trading_advice g ind).advice ≠ Signal.watch
    ∧ Simple.growth_advice (-0.7) = Signal.watch := by
  constructor
  · rcases h5 : ind.ma5 with _ | m5 <;> rcases h10 : ind.ma10 with _ | m10 <;>
      simp only [Final.get_trading_advice, h5, h10] <;>
      apply rsi_override_ne_watch <;>
      (try split_ifs) <;> simp
  · norm_num [Simple.growth_advice]

end LocalDog
